import Mathlib

/-!
Verification of the data pipeline of the project-performance dashboard
(`src/app.py`): loading, categorical filtering, KPI computation and the
grouped aggregate views, together with the script-level control flow
(halt on empty load, degraded-mode notices, and the in-place column
assignment on the filtered view).

Numbers are modelled as rationals; the floating NaN produced by pandas
`mean()` on an empty column is modelled by `Option ℚ` (`none` = NaN).
A pandas DataFrame is modelled as a list of rows together with one
presence flag per column of the observed schema; a value stored in a
row for an absent column is irrelevant.
-/

/-- A row of the table. One field per column observed in the schema of
`cleaned_project_data.xlsx`, plus the derived `Budget Utilization Display`
column that line 115 of `app.py` can add. -/
structure Row where
  projectType : String
  status : String
  totalProjects : ℚ
  budgetAllocated : ℚ
  budgetUtilized : ℚ
  citizenSatisfactionRate : ℚ
  year : Int
  budgetUtilizationPercentage : ℚ
  budgetUtilizationDisplay : ℚ
deriving DecidableEq

/-- A DataFrame: ordered rows plus a presence flag for each column.
`df.empty` in pandas corresponds to `rows = []`. -/
structure Dataset where
  rows : List Row
  hasProjectType : Bool
  hasStatus : Bool
  hasTotalProjects : Bool
  hasBudgetAllocated : Bool
  hasBudgetUtilized : Bool
  hasCitizenSatisfactionRate : Bool
  hasYear : Bool
  hasBudgetUtilizationPercentage : Bool
  hasBudgetUtilizationDisplay : Bool
deriving DecidableEq

/-- `pd.DataFrame()`: no rows, no columns (app.py lines 20 and 26). -/
def emptyDataFrame : Dataset :=
  ⟨[], false, false, false, false, false, false, false, false, false⟩

/-- The environment `load_data` runs in: whether the path exists, and the
outcome of `pd.read_excel` when attempted (`none` = raises). -/
structure LoadEnv where
  pathExists : Bool
  parseResult : Option Dataset
deriving DecidableEq

/-- `load_data` (app.py lines 17-26): error messages shown via `st.error`,
paired with the returned DataFrame. -/
def load_data (env : LoadEnv) : List String × Dataset :=
  if env.pathExists = false then
    (["Data file not found at: cleaned_project_data.xlsx"], emptyDataFrame)
  else
    match env.parseResult with
    | some df => ([], df)
    | none => (["Error loading data"], emptyDataFrame)

/-- The selections of the two sidebar multiselects. -/
structure FilterState where
  selectedProjectTypes : List String
  selectedStatuses : List String
deriving DecidableEq

/-- The filtering block (app.py lines 41-63): the `Project Type` step then
the `Status` step, each applied only when its column is present and
otherwise producing a sidebar warning. Returns `df_filtered` and the
warnings. -/
def filterDataset (df : Dataset) (fs : FilterState) : Dataset × List String :=
  let ptRows := df.rows.filter (fun r => fs.selectedProjectTypes.contains r.projectType)
  let step1 : Dataset × List String :=
    if df.hasProjectType then
      ({ df with rows := ptRows }, [])
    else
      (df, ["Project Type column not found for filtering."])
  let stRows := step1.1.rows.filter (fun r => fs.selectedStatuses.contains r.status)
  if df.hasStatus then
    ({ step1.1 with rows := stRows }, step1.2)
  else
    (step1.1, step1.2 ++ ["Status column not found for filtering."])

/-- `Series.mean()`: NaN (here `none`) on an empty column. -/
def listMean (l : List ℚ) : Option ℚ :=
  if l.isEmpty then none else some (l.sum / (l.length : ℚ))

/-- `total_projects` (app.py line 71). -/
def total_projects (df : Dataset) : ℚ :=
  if df.hasTotalProjects then (df.rows.map Row.totalProjects).sum else 0

/-- `avg_budget_utilization` (app.py lines 75-77). -/
def avg_budget_utilization (df : Dataset) : ℚ :=
  if df.hasBudgetUtilized = true ∧ df.hasBudgetAllocated = true ∧
      0 < (df.rows.map Row.budgetAllocated).sum then
    (df.rows.map Row.budgetUtilized).sum / (df.rows.map Row.budgetAllocated).sum * 100
  else 0

/-- `avg_satisfaction` (app.py line 82); `none` is the NaN that
`mean()` yields on an empty column (NaN is absorbing under `* 100`). -/
def avg_satisfaction (df : Dataset) : Option ℚ :=
  if df.hasCitizenSatisfactionRate then
    (listMean (df.rows.map Row.citizenSatisfactionRate)).map (fun q => q * 100)
  else some 0

/-- `int(x)` truncates toward zero: T-division of numerator by denominator. -/
def intTrunc (q : ℚ) : Int := Int.tdiv q.num (q.den : Int)

/-- Floor of a rational, written with `Int.fdiv` so it evaluates by kernel
reduction (the denominator is positive, so floor division is the floor). -/
def ratFloor (q : ℚ) : Int := Int.fdiv q.num (q.den : Int)

/-- Round to the nearest integer (`⌊q + 1/2⌋`; the claims exercise no tie,
where CPython's float formatting would round to even instead). -/
def ratRound (q : ℚ) : Int := ratFloor (q + 1/2)

/-- Python `f"{x:.2f}%"` on a (non-NaN) value: round to two decimals and
print with a zero-padded fractional part and a trailing percent sign. -/
def pctString2 (q : ℚ) : String :=
  let n : Int := ratRound (q * 100)
  let a : Nat := n.natAbs
  let fracPart : Nat := a % 100
  let fracStr : String := (if fracPart < 10 then "0" else "") ++ toString fracPart
  (if n < 0 then "-" else "") ++ toString (a / 100) ++ "." ++ fracStr ++ "%"

/-- Formatting of a possibly-NaN value: `f"{nan:.2f}%"` prints `nan%`. -/
def fmtOpt (q : Option ℚ) : String :=
  match q with
  | none => "nan%"
  | some v => pctString2 v

/-- The three KPI values as displayed by `st.metric` (app.py lines 70-83). -/
structure KPISet where
  totalProjectsDisplay : Int
  avgBudgetUtilizationDisplay : String
  avgSatisfactionDisplay : String
deriving DecidableEq

/-- `computeKPIs` of the spec: the KPI block at app.py lines 70-83. -/
def computeKPIs (df : Dataset) : KPISet :=
  ⟨intTrunc (total_projects df),
   pctString2 (avg_budget_utilization df),
   fmtOpt (avg_satisfaction df)⟩

/-- `value_counts()` (app.py line 90): distinct status values with their
occurrence counts, most frequent first. -/
def computeStatusCounts (df : Dataset) : List (String × Nat) :=
  let vals := df.rows.map Row.status
  (List.insertionSort (fun a b => vals.count b ≤ vals.count a) vals.dedup).map
    (fun s => (s, vals.count s))

/-- `budget_by_type` (app.py line 103): group by `Project Type`
(keys sorted ascending, as pandas `groupby` does) and sum
`Budget Allocated` per group. -/
def budget_by_type (df : Dataset) : List (String × ℚ) :=
  let keys := List.insertionSort (fun a b => a ≤ b) (df.rows.map Row.projectType).dedup
  keys.map (fun k =>
    (k, ((df.rows.filter (fun r => r.projectType = k)).map Row.budgetAllocated).sum))

/-- Line 115 of app.py: assign the derived `Budget Utilization Display`
column (percentage × 100) on the DataFrame, in place. -/
def setDisplay (r : Row) : Row :=
  { r with budgetUtilizationDisplay := r.budgetUtilizationPercentage * 100 }

/-- Line 115 continued: the resulting DataFrame. -/
def addDisplayColumn (df : Dataset) : Dataset :=
  { df with
    hasBudgetUtilizationDisplay := true,
    rows := df.rows.map setDisplay }

/-- `utilization_trend` (app.py line 117): group by `Year` (keys sorted
ascending) and average `Budget Utilization Display` per group. -/
def utilization_trend (df : Dataset) : List (Int × ℚ) :=
  let years := List.insertionSort (fun a b => a ≤ b) (df.rows.map Row.year).dedup
  years.map (fun y =>
    (y, ((df.rows.filter (fun r => r.year = y)).map Row.budgetUtilizationDisplay).sum /
        (((df.rows.filter (fun r => r.year = y)).length : ℚ))))

/-- Everything one render pass of the script shows, plus the final state
of the `df` object (to express mutation of the loaded Dataset). -/
structure ScriptResult where
  errors : List String
  sidebarWarnings : List String
  infos : List String
  stopped : Bool
  kpis : Option KPISet
  statusChart : Option (List (String × Nat))
  budgetPie : Option (List (String × ℚ))
  utilTrend : Option (List (Int × ℚ))
  displayedTable : Option Dataset
  finalDf : Dataset
deriving DecidableEq

/-- The `st.info` text of app.py line 128. -/
def trendNotice : String :=
  "To show Budget Utilization Trend, ensure a Year column exists in your data."

/-- One full render pass of the script (app.py top to bottom): load, stop
if empty, filter, KPIs, charts, trend section (with the in-place display
column and the alias `df_filtered = df` taken when neither filterable
column exists), and the final raw-data table. -/
def script (env : LoadEnv) (fs : FilterState) : ScriptResult :=
  let loaded := load_data env
  let df := loaded.2
  if df.rows.isEmpty then
    { errors := loaded.1, sidebarWarnings := [], infos := [], stopped := true,
      kpis := none, statusChart := none, budgetPie := none, utilTrend := none,
      displayedTable := none, finalDf := df }
  else
    let filtered := filterDataset df fs
    let dfF := filtered.1
    let aliased := !df.hasProjectType && !df.hasStatus
    let kpis := computeKPIs dfF
    let statusChart := if dfF.hasStatus then some (computeStatusCounts dfF) else none
    let budgetPie :=
      if dfF.hasBudgetAllocated && dfF.hasProjectType then some (budget_by_type dfF) else none
    if dfF.hasYear && dfF.hasBudgetUtilizationPercentage then
      let df3 := addDisplayColumn dfF
      { errors := loaded.1, sidebarWarnings := filtered.2, infos := [], stopped := false,
        kpis := some kpis, statusChart := statusChart, budgetPie := budgetPie,
        utilTrend := some (utilization_trend df3),
        displayedTable := some df3,
        finalDf := if aliased then df3 else df }
    else
      { errors := loaded.1, sidebarWarnings := filtered.2,
        infos := if dfF.hasBudgetUtilizationPercentage then [trendNotice] else [],
        stopped := false,
        kpis := some kpis, statusChart := statusChart, budgetPie := budgetPie,
        utilTrend := none, displayedTable := some dfF, finalDf := df }

/-! ## Helper lemmas -/

theorem filterDataset_hasProjectType (df : Dataset) (fs : FilterState) :
    (filterDataset df fs).1.hasProjectType = df.hasProjectType := by
  unfold filterDataset
  cases hp : df.hasProjectType <;> cases hs : df.hasStatus <;> simp [hp, hs]

theorem filterDataset_hasStatus (df : Dataset) (fs : FilterState) :
    (filterDataset df fs).1.hasStatus = df.hasStatus := by
  unfold filterDataset
  cases hp : df.hasProjectType <;> cases hs : df.hasStatus <;> simp [hp, hs]

theorem filterDataset_hasTotalProjects (df : Dataset) (fs : FilterState) :
    (filterDataset df fs).1.hasTotalProjects = df.hasTotalProjects := by
  unfold filterDataset
  cases hp : df.hasProjectType <;> cases hs : df.hasStatus <;> simp [hp, hs]

theorem filterDataset_hasBudgetAllocated (df : Dataset) (fs : FilterState) :
    (filterDataset df fs).1.hasBudgetAllocated = df.hasBudgetAllocated := by
  unfold filterDataset
  cases hp : df.hasProjectType <;> cases hs : df.hasStatus <;> simp [hp, hs]

theorem filterDataset_hasBudgetUtilized (df : Dataset) (fs : FilterState) :
    (filterDataset df fs).1.hasBudgetUtilized = df.hasBudgetUtilized := by
  unfold filterDataset
  cases hp : df.hasProjectType <;> cases hs : df.hasStatus <;> simp [hp, hs]

/-- hasCSR preservation. -/
theorem filterDataset_hasCSR (df : Dataset) (fs : FilterState) :
    (filterDataset df fs).1.hasCitizenSatisfactionRate = df.hasCitizenSatisfactionRate := by
  unfold filterDataset
  cases hp : df.hasProjectType <;> cases hs : df.hasStatus <;> simp [hp, hs]

theorem filterDataset_hasYear (df : Dataset) (fs : FilterState) :
    (filterDataset df fs).1.hasYear = df.hasYear := by
  unfold filterDataset
  cases hp : df.hasProjectType <;> cases hs : df.hasStatus <;> simp [hp, hs]

/-- hasBudgetUtilizationPercentage preservation. -/
theorem filterDataset_hasBUP (df : Dataset) (fs : FilterState) :
    (filterDataset df fs).1.hasBudgetUtilizationPercentage
      = df.hasBudgetUtilizationPercentage := by
  unfold filterDataset
  cases hp : df.hasProjectType <;> cases hs : df.hasStatus <;> simp [hp, hs]

/-- hasBudgetUtilizationDisplay preservation. -/
theorem filterDataset_hasBUD (df : Dataset) (fs : FilterState) :
    (filterDataset df fs).1.hasBudgetUtilizationDisplay
      = df.hasBudgetUtilizationDisplay := by
  unfold filterDataset
  cases hp : df.hasProjectType <;> cases hs : df.hasStatus <;> simp [hp, hs]

theorem filterDataset_rows (df : Dataset) (fs : FilterState) :
    (filterDataset df fs).1.rows =
      df.rows.filter (fun r =>
        (!df.hasProjectType || fs.selectedProjectTypes.contains r.projectType) &&
        (!df.hasStatus || fs.selectedStatuses.contains r.status)) := by
  unfold filterDataset
  cases hp : df.hasProjectType <;> cases hs : df.hasStatus <;>
    simp [hp, hs, List.filter_filter]
  exact List.filter_congr (fun a _ => Bool.and_comm _ _)

theorem filterDataset_warnings (df : Dataset) (fs : FilterState) :
    (filterDataset df fs).2 =
      (if df.hasProjectType then [] else ["Project Type column not found for filtering."]) ++
      (if df.hasStatus then [] else ["Status column not found for filtering."]) := by
  unfold filterDataset
  cases hp : df.hasProjectType <;> cases hs : df.hasStatus <;> simp [hp, hs]

/-! ## Concrete datasets used by witnesses and counterexamples -/

/-- A parsed file with every schema column but zero data rows. -/
def emptyAllColumns : Dataset :=
  ⟨[], true, true, true, true, true, true, true, true, false⟩

def rowA : Row := ⟨"Infrastructure", "Done", 1, 100, 80, 9/10, 2020, 1/2, 0⟩

def rowB : Row := ⟨"Health", "Active", 2, 50, 50, 4/5, 2019, 3/4, 0⟩

/-- A small dataset with every schema column present. -/
def sampleDataset : Dataset :=
  ⟨[rowA, rowB], true, true, true, true, true, true, true, true, false⟩

/-- A dataset without the two filterable columns but with `Year` and
`Budget Utilization Percentage`: here `df_filtered` aliases `df`. -/
def aliasDataset : Dataset :=
  ⟨[rowA], false, false, false, false, false, false, true, true, false⟩

/-- The scenario of spec §8: two rows, Budget Allocated 100 and 50,
Budget Utilized 80 and 50. -/
def budgetScenario : Dataset :=
  ⟨[⟨"", "Done", 0, 100, 80, 0, 0, 0, 0⟩, ⟨"", "Active", 0, 50, 50, 0, 0, 0, 0⟩],
   false, true, false, true, true, false, false, false, false⟩

/-- A trivial filter selection. -/
def noSelection : FilterState := ⟨[], []⟩

/-- Selections matching every row of `sampleDataset`. -/
def fullSelection : FilterState :=
  ⟨["Infrastructure", "Health"], ["Done", "Active"]⟩

/-! ## Claim C2 -/

/-- C2: `filter(D,F)` keeps exactly the rows whose value in each
filterable column present in `D` lies in the corresponding selected set,
in the original order (a single ordered `List.filter` of the original
rows); a filterable column absent from `D` imposes no constraint and a
degraded-mode warning is surfaced for exactly the absent columns. -/
theorem filter_returns_matching_rows_in_order (df : Dataset) (fs : FilterState) :
    (filterDataset df fs).1.rows =
      df.rows.filter (fun r =>
        (!df.hasProjectType || fs.selectedProjectTypes.contains r.projectType) &&
        (!df.hasStatus || fs.selectedStatuses.contains r.status)) ∧
    (filterDataset df fs).2 =
      (if df.hasProjectType then [] else ["Project Type column not found for filtering."]) ++
      (if df.hasStatus then [] else ["Status column not found for filtering."]) :=
  ⟨filterDataset_rows df fs, filterDataset_warnings df fs⟩

/-! ## Claim C4 -/

/-- C4: when the data file path does not exist, or the file cannot be
parsed, the render pass shows an error, stops, and computes neither KPIs
nor charts nor the raw-data table. -/
theorem load_failure_halts_render (env : LoadEnv) (fs : FilterState)
    (h : env.pathExists = false ∨ env.parseResult = none) :
    (script env fs).stopped = true ∧
    (script env fs).errors ≠ [] ∧
    (script env fs).kpis = none ∧
    (script env fs).statusChart = none ∧
    (script env fs).budgetPie = none ∧
    (script env fs).utilTrend = none ∧
    (script env fs).displayedTable = none := by
  obtain ⟨pe, pr⟩ := env
  rcases h with h | h
  · simp only at h
    subst h
    simp [script, load_data, emptyDataFrame]
  · simp only at h
    subst h
    cases pe <;> simp [script, load_data, emptyDataFrame]

/-- Witness for C4 at a missing path. -/
theorem load_failure_halts_render_witness :
    ((⟨false, none⟩ : LoadEnv).pathExists = false ∨
      (⟨false, none⟩ : LoadEnv).parseResult = none) ∧
    (script ⟨false, none⟩ noSelection).stopped = true ∧
    (script ⟨false, none⟩ noSelection).errors ≠ [] ∧
    (script ⟨false, none⟩ noSelection).kpis = none ∧
    (script ⟨false, none⟩ noSelection).statusChart = none ∧
    (script ⟨false, none⟩ noSelection).budgetPie = none ∧
    (script ⟨false, none⟩ noSelection).utilTrend = none ∧
    (script ⟨false, none⟩ noSelection).displayedTable = none :=
  ⟨Or.inl rfl, load_failure_halts_render ⟨false, none⟩ noSelection (Or.inl rfl)⟩

/-! ## Claim C10 -/

/-- C10: a file that parses successfully but has zero rows halts the
render pass exactly like a failed load — nothing downstream is computed —
but with no error message shown. -/
theorem empty_dataset_halts_render_silently (d : Dataset) (fs : FilterState)
    (h : d.rows = []) :
    script ⟨true, some d⟩ fs =
      ⟨[], [], [], true, none, none, none, none, none, d⟩ := by
  simp [script, load_data, h]

/-- Witness for C10 on a parsed file with columns but no rows. -/
theorem empty_dataset_halts_render_silently_witness :
    emptyAllColumns.rows = [] ∧
    script ⟨true, some emptyAllColumns⟩ noSelection =
      ⟨[], [], [], true, none, none, none, none, none, emptyAllColumns⟩ :=
  ⟨rfl, empty_dataset_halts_render_silently emptyAllColumns noSelection rfl⟩

/-! ## Claim C1 -/

/-- C1 counterexample: on the empty dataset that still has the
`Citizen Satisfaction Rate` column (any fully-filtered or empty-but-typed
file), `mean()` is NaN, so the satisfaction KPI displays `nan%`, not the
`0.00%` the claim requires. -/
theorem kpis_empty_dataset_counterexample :
    (computeKPIs emptyAllColumns).avgSatisfactionDisplay = "nan%" ∧
    computeKPIs emptyAllColumns ≠ ⟨0, "0.00%", "0.00%"⟩ := by
  with_unfolding_all decide

/-- C1 amended: on every empty dataset the total-projects KPI is 0 and
the budget-utilization KPI displays `0.00%`; the satisfaction KPI
displays `0.00%` when the `Citizen Satisfaction Rate` column is absent,
but `nan%` (the NaN mean of an empty column) when it is present. -/
theorem kpis_on_empty_dataset (df : Dataset) (h : df.rows = []) :
    computeKPIs df =
      ⟨0, "0.00%",
       if df.hasCitizenSatisfactionRate then "nan%" else "0.00%"⟩ := by
  have h0 : intTrunc (0 : ℚ) = 0 := by with_unfolding_all decide
  have h1 : pctString2 (0 : ℚ) = "0.00%" := by with_unfolding_all decide
  have ht : total_projects df = 0 := by
    unfold total_projects
    simp [h]
  have hb : avg_budget_utilization df = 0 := by
    unfold avg_budget_utilization
    simp [h]
  have hs : avg_satisfaction df = if df.hasCitizenSatisfactionRate then none else some 0 := by
    unfold avg_satisfaction
    cases hc : df.hasCitizenSatisfactionRate <;> simp [h, listMean]
  unfold computeKPIs
  rw [ht, hb, hs, h0, h1]
  cases hc : df.hasCitizenSatisfactionRate <;> simp [fmtOpt, h1]

/-- Witness for the amended C1, on the column-free empty DataFrame. -/
theorem kpis_on_empty_dataset_witness :
    emptyDataFrame.rows = [] ∧
    computeKPIs emptyDataFrame =
      ⟨0, "0.00%",
       if emptyDataFrame.hasCitizenSatisfactionRate then "nan%" else "0.00%"⟩ :=
  ⟨rfl, kpis_on_empty_dataset emptyDataFrame rfl⟩

/-! ## Claim C3 -/

/-- Spec-side definition, following §4's words: `sum(budgetUtilized) /
sum(budgetAllocated) * 100` if both columns are present and the allocated
sum is strictly positive, else 0. To be compared with the
`avg_budget_utilization` taken from the source. -/
def specAvgBudgetUtilization (df : Dataset) : ℚ :=
  if df.hasBudgetUtilized = true ∧ df.hasBudgetAllocated = true ∧
      0 < (df.rows.map Row.budgetAllocated).sum then
    (df.rows.map Row.budgetUtilized).sum / (df.rows.map Row.budgetAllocated).sum * 100
  else 0

/-- C3: the code's average-budget-utilization agrees with the spec's
formula on every dataset, and on the two-row scenario (allocated 100 and
50, utilized 80 and 50) it evaluates to (80+50)/(100+50)*100 = 260/3,
displayed to two decimals as `86.67%`. -/
theorem avg_budget_utilization_correct :
    (∀ df : Dataset, avg_budget_utilization df = specAvgBudgetUtilization df) ∧
    avg_budget_utilization budgetScenario = 260/3 ∧
    pctString2 (avg_budget_utilization budgetScenario) = "86.67%" := by
  refine ⟨fun df => rfl, ?_, ?_⟩ <;> with_unfolding_all decide

/-! ## Claim C6 -/

theorem sortedKeys_pairwise_lt (l : List Int) :
    List.Pairwise (fun a b => a < b)
      (List.insertionSort (fun a b => a ≤ b) l.dedup) := by
  have hsorted : List.Sorted (fun a b : Int => a ≤ b)
      (List.insertionSort (fun a b => a ≤ b) l.dedup) :=
    List.sorted_insertionSort _ _
  have hnodup : (List.insertionSort (fun a b : Int => a ≤ b) l.dedup).Nodup :=
    (List.perm_insertionSort _ _).nodup_iff.mpr (List.nodup_dedup l)
  exact (List.Sorted.lt_of_le hsorted hnodup)

/-- C6: on every dataset with the `Year` and `Budget Utilization
Percentage` columns, the utilization trend is strictly ascending in its
year component, so no year appears twice. -/
theorem utilization_trend_strictly_ascending (df : Dataset)
    (hy : df.hasYear = true) (hp : df.hasBudgetUtilizationPercentage = true) :
    List.Pairwise (fun a b => a.1 < b.1) (utilization_trend df) ∧
    ((utilization_trend df).map Prod.fst).Nodup := by
  have hkeys := sortedKeys_pairwise_lt (df.rows.map Row.year)
  have h1 : List.Pairwise (fun a b => a.1 < b.1) (utilization_trend df) := by
    unfold utilization_trend
    rw [List.pairwise_map]
    exact hkeys
  exact ⟨h1, List.Pairwise.map _ (fun a b hab => ne_of_lt hab) h1⟩

/-- Witness for C6 on the two-row sample dataset (years 2020 and 2019). -/
theorem utilization_trend_strictly_ascending_witness :
    sampleDataset.hasYear = true ∧
    sampleDataset.hasBudgetUtilizationPercentage = true ∧
    (List.Pairwise (fun a b => a.1 < b.1) (utilization_trend sampleDataset) ∧
      ((utilization_trend sampleDataset).map Prod.fst).Nodup) :=
  ⟨rfl, rfl, utilization_trend_strictly_ascending sampleDataset rfl rfl⟩

/-! ## Claim C7 -/

theorem sum_map_ite_zero (keys : List String) (x : String) (v : ℚ)
    (hx : x ∉ keys) :
    (keys.map (fun k => if x = k then v else 0)).sum = 0 := by
  induction keys with
  | nil => simp
  | cons k ks ih =>
    have hxk : x ≠ k := fun h => hx (h ▸ List.mem_cons_self k ks)
    have hxs : x ∉ ks := fun h => hx (List.mem_cons_of_mem k h)
    simp [hxk, ih hxs]

theorem sum_map_ite (keys : List String) (x : String) (v : ℚ)
    (hnd : keys.Nodup) (hx : x ∈ keys) :
    (keys.map (fun k => if x = k then v else 0)).sum = v := by
  induction keys with
  | nil => cases hx
  | cons k ks ih =>
    rcases List.nodup_cons.mp hnd with ⟨hk, hks⟩
    rcases List.mem_cons.mp hx with h | h
    · subst h
      simp [sum_map_ite_zero ks x v hk]
    · have hxk : x ≠ k := fun he => hk (he ▸ h)
      simp [hxk, ih hks h]

theorem sum_map_add_pointwise (l : List String) (f g : String → ℚ) :
    (l.map (fun x => f x + g x)).sum = (l.map f).sum + (l.map g).sum := by
  induction l with
  | nil => simp
  | cons a t ih => simp [ih]; ring

/-- Re-summing per-key group sums over a complete duplicate-free key list
recovers the total sum. -/
theorem sum_groups (rows : List Row) (keys : List String)
    (hnd : keys.Nodup) (hcov : ∀ r ∈ rows, r.projectType ∈ keys) :
    (keys.map (fun k =>
        ((rows.filter (fun r => r.projectType = k)).map Row.budgetAllocated).sum)).sum
      = (rows.map Row.budgetAllocated).sum := by
  induction rows with
  | nil => simp
  | cons r rs ih =>
    have hstep : ∀ k : String,
        ((List.filter (fun r' => r'.projectType = k) (r :: rs)).map Row.budgetAllocated).sum
          = (if r.projectType = k then r.budgetAllocated else 0) +
            ((rs.filter (fun r' => r'.projectType = k)).map Row.budgetAllocated).sum := by
      intro k
      by_cases h : r.projectType = k <;> simp [List.filter_cons, h]
    calc (keys.map (fun k =>
            ((List.filter (fun r' => r'.projectType = k) (r :: rs)).map Row.budgetAllocated).sum)).sum
        = (keys.map (fun k =>
            (if r.projectType = k then r.budgetAllocated else 0) +
            ((rs.filter (fun r' => r'.projectType = k)).map Row.budgetAllocated).sum)).sum := by
          exact congrArg List.sum (List.map_congr_left (fun k _ => hstep k))
      _ = (keys.map (fun k => if r.projectType = k then r.budgetAllocated else 0)).sum +
          (keys.map (fun k =>
            ((rs.filter (fun r' => r'.projectType = k)).map Row.budgetAllocated).sum)).sum := by
          exact sum_map_add_pointwise keys _ _
      _ = r.budgetAllocated + (rs.map Row.budgetAllocated).sum := by
          rw [sum_map_ite keys r.projectType r.budgetAllocated hnd
              (hcov r (List.mem_cons_self r rs)),
            ih (fun x hx => hcov x (List.mem_cons_of_mem r hx))]
      _ = ((r :: rs).map Row.budgetAllocated).sum := by simp

/-- C7: re-summing the per-type totals of `budget_by_type` yields the
total `Budget Allocated` sum of the input dataset. -/
theorem budget_by_type_total (df : Dataset)
    (h1 : df.hasProjectType = true) (h2 : df.hasBudgetAllocated = true) :
    ((budget_by_type df).map Prod.snd).sum
      = (df.rows.map Row.budgetAllocated).sum := by
  unfold budget_by_type
  rw [List.map_map]
  have hperm := List.perm_insertionSort (fun a b : String => a ≤ b)
    (df.rows.map Row.projectType).dedup
  have hnd : (List.insertionSort (fun a b : String => a ≤ b)
      (df.rows.map Row.projectType).dedup).Nodup :=
    hperm.nodup_iff.mpr (List.nodup_dedup _)
  have hcov : ∀ r ∈ df.rows, r.projectType ∈
      List.insertionSort (fun a b : String => a ≤ b)
        (df.rows.map Row.projectType).dedup := by
    intro r hr
    exact hperm.mem_iff.mpr (List.mem_dedup.mpr (List.mem_map_of_mem Row.projectType hr))
  exact sum_groups df.rows _ hnd hcov

/-- Witness for C7 on the two-row sample dataset (types Infrastructure
and Health, allocated 100 + 50). -/
theorem budget_by_type_total_witness :
    sampleDataset.hasProjectType = true ∧
    sampleDataset.hasBudgetAllocated = true ∧
    ((budget_by_type sampleDataset).map Prod.snd).sum
      = (sampleDataset.rows.map Row.budgetAllocated).sum :=
  ⟨rfl, rfl, budget_by_type_total sampleDataset rfl rfl⟩

/-! ## Claim C8 -/

/-- C8: on a successfully loaded nonempty dataset, if `Budget Utilization
Percentage` is present but `Year` is absent, the render pass shows the
explicit trend-unavailable notice and no trend chart; if both columns are
absent, no notice is shown. -/
theorem trend_unavailable_notice (d : Dataset) (fs : FilterState)
    (hne : d.rows ≠ []) :
    (d.hasBudgetUtilizationPercentage = true → d.hasYear = false →
      (script ⟨true, some d⟩ fs).infos = [trendNotice] ∧
      (script ⟨true, some d⟩ fs).utilTrend = none) ∧
    (d.hasBudgetUtilizationPercentage = false → d.hasYear = false →
      (script ⟨true, some d⟩ fs).infos = []) := by
  constructor
  · intro hp hy
    simp [script, load_data, hne, filterDataset_hasYear, filterDataset_hasBUP, hp, hy]
  · intro hp hy
    simp [script, load_data, hne, filterDataset_hasYear, filterDataset_hasBUP, hp, hy]

/-- Witness for C8: one row, percentage column present, no year column. -/
theorem trend_unavailable_notice_witness :
    (⟨[rowA], false, false, false, false, false, false, false, true, false⟩
        : Dataset).rows ≠ [] ∧
    (script ⟨true, some ⟨[rowA], false, false, false, false, false, false, false,
        true, false⟩⟩ noSelection).infos = [trendNotice] ∧
    (script ⟨true, some ⟨[rowA], false, false, false, false, false, false, false,
        true, false⟩⟩ noSelection).utilTrend = none := by
  have hne : (⟨[rowA], false, false, false, false, false, false, false, true, false⟩
      : Dataset).rows ≠ [] := by simp
  exact ⟨hne, (trend_unavailable_notice _ noSelection hne).1 rfl rfl⟩

/-! ## Claim C9 -/

/-- C9: when `Year` and `Budget Utilization Percentage` are both present,
the table rendered at the end of the pass is the filtered view with the
derived `Budget Utilization Display` column added (percentage × 100),
a column the loaded dataset did not have. -/
theorem filtered_table_gains_display_column (d : Dataset) (fs : FilterState)
    (hne : d.rows ≠ []) (hy : d.hasYear = true)
    (hp : d.hasBudgetUtilizationPercentage = true)
    (hd : d.hasBudgetUtilizationDisplay = false) :
    (script ⟨true, some d⟩ fs).displayedTable
      = some (addDisplayColumn (filterDataset d fs).1) ∧
    (addDisplayColumn (filterDataset d fs).1).hasBudgetUtilizationDisplay = true ∧
    (filterDataset d fs).1.hasBudgetUtilizationDisplay = false ∧
    (addDisplayColumn (filterDataset d fs).1).rows
      = (filterDataset d fs).1.rows.map setDisplay := by
  refine ⟨?_, rfl, ?_, rfl⟩
  · simp [script, load_data, hne, filterDataset_hasYear, filterDataset_hasBUP, hy, hp]
  · rw [filterDataset_hasBUD]
    exact hd

/-- Witness for C9 on the full sample dataset. -/
theorem filtered_table_gains_display_column_witness :
    sampleDataset.rows ≠ [] ∧ sampleDataset.hasYear = true ∧
    sampleDataset.hasBudgetUtilizationPercentage = true ∧
    sampleDataset.hasBudgetUtilizationDisplay = false ∧
    ((script ⟨true, some sampleDataset⟩ fullSelection).displayedTable
      = some (addDisplayColumn (filterDataset sampleDataset fullSelection).1) ∧
    (addDisplayColumn (filterDataset sampleDataset fullSelection).1).hasBudgetUtilizationDisplay
      = true ∧
    (filterDataset sampleDataset fullSelection).1.hasBudgetUtilizationDisplay = false ∧
    (addDisplayColumn (filterDataset sampleDataset fullSelection).1).rows
      = (filterDataset sampleDataset fullSelection).1.rows.map setDisplay) := by
  have hne : sampleDataset.rows ≠ [] := by simp [sampleDataset]
  exact ⟨hne, rfl, rfl, rfl,
    filtered_table_gains_display_column sampleDataset fullSelection hne rfl rfl rfl⟩

/-! ## Claim C5 -/

set_option maxRecDepth 4000 in
/-- C5 counterexample: when both filterable columns are absent,
`df_filtered = df` aliases the loaded DataFrame, and the display-column
assignment of line 115 then mutates the loaded dataset itself: after the
render pass the original `df` has gained the extra column. -/
theorem loaded_dataset_mutated_counterexample :
    (script ⟨true, some aliasDataset⟩ noSelection).finalDf
      = addDisplayColumn aliasDataset ∧
    (script ⟨true, some aliasDataset⟩ noSelection).finalDf ≠ aliasDataset := by
  with_unfolding_all decide

/-- C5 amended: the render pass leaves the loaded dataset unaltered
whenever at least one filterable column is present (then `df_filtered` is
a fresh copy) or the trend section does not run (missing `Year` or
missing `Budget Utilization Percentage`); only in the remaining aliasing
case is the loaded dataset mutated. -/
theorem script_preserves_loaded_dataset (d : Dataset) (fs : FilterState)
    (h : d.hasProjectType = true ∨ d.hasStatus = true ∨ d.hasYear = false ∨
        d.hasBudgetUtilizationPercentage = false) :
    (script ⟨true, some d⟩ fs).finalDf = d := by
  by_cases hne : d.rows = []
  · simp [script, load_data, hne]
  · rcases h with h | h | h | h <;>
      simp [script, load_data, hne, filterDataset_hasYear, filterDataset_hasBUP, h] <;>
      (try (split <;> rfl))

/-- Witness for the amended C5 on the sample dataset, whose
`Project Type` column is present. -/
theorem script_preserves_loaded_dataset_witness :
    (sampleDataset.hasProjectType = true ∨ sampleDataset.hasStatus = true ∨
      sampleDataset.hasYear = false ∨
      sampleDataset.hasBudgetUtilizationPercentage = false) ∧
    (script ⟨true, some sampleDataset⟩ fullSelection).finalDf = sampleDataset :=
  ⟨Or.inl rfl,
   script_preserves_loaded_dataset sampleDataset fullSelection (Or.inl rfl)⟩
